/-
Verification of the Sully AI web application core (app.py).

This file gives a shallow embedding, in Lean 4, of the parts of the
program that the specification talks about:

* the per-symbol quote fetch (`NewsAggregator.get_stock_data` and the
  module-level `fetch_stock_data_from_yahoo`, which share one algorithm),
* the time-based quote-cache refresh logic inlined in the `/chat`,
  `/api/insights` and `/api/briefing` handlers,
* the keyword message router inside the `/chat` handler,
* the news helpers `search_live_news` and `search_vip_news`,
* the conversation engine `SullyAI.chat`,
* the snapshot analyzers `extract_insights` and `detect_alerts`.

Network I/O is modelled by explicit outcome oracles (one `ApiOutcome`
value per upstream call), Python floats by exact rationals, Python dicts
in insertion order by association lists, and Python exceptions by
explicit constructors.  Every definition is translated from the source;
theorems at the end settle the specification claims.
-/
import Mathlib

/-! ## Numeric helpers

Python's `round(x, 2)` rounds to two decimals half-to-even.  Prices are
modelled as exact rationals, so the embedding rounds the rational
exactly; the float-representation noise of CPython is not modelled. -/

/-- Round a rational to the nearest integer, ties to even
(the rounding mode of Python's builtin `round`), computed on the
reduced numerator and denominator: with `f` the floor and `r` the
remainder, the fractional part `r / d` is compared against `1/2` by
comparing `2 * r` against `d`. -/
def roundHalfEven (q : ℚ) : ℤ :=
  let n : ℤ := q.num
  let d : ℤ := (q.den : ℤ)
  let f : ℤ := Int.fdiv n d
  let r : ℤ := n - f * d
  if 2 * r < d then f
  else if 2 * r > d then f + 1
  else if f % 2 = 0 then f else f + 1

/-- Python `round(x, 2)`: the integer rounding scaled back by 100. -/
def round2 (q : ℚ) : ℚ := mkRat (roundHalfEven (q * 100)) 100

theorem roundHalfEven_zero : roundHalfEven 0 = 0 := by
  simp [roundHalfEven]

theorem round2_zero : round2 0 = 0 := by
  simp [round2, roundHalfEven]

/-- Last `n` elements of a list: Python `l[-n:]`. -/
def lastN {α : Type} (l : List α) (n : ℕ) : List α :=
  l.drop (l.length - n)

/-! ## Quote data model -/

/-- The fields read from the Yahoo chart `meta` object.  A `none` stands
for an absent JSON key (Python `dict.get` with a default). -/
structure YahooMeta where
  regularMarketPrice : Option ℚ
  previousClose : Option ℚ
  regularMarketVolume : Option ℕ
deriving DecidableEq, Repr

/-- One entry of the per-symbol quote mapping: either the normalized
quote record or the `{'error': msg, 'symbol': sym}` record stored when
the lookup raised. -/
inductive StockEntry where
  | ok (symbol : String) (price change change_percent previous_close : ℚ)
      (volume : ℕ) (history : List ℚ)
  | err (msg : String) (symbol : String)
deriving DecidableEq, Repr

/-- Outcome of one Yahoo quote HTTP call.
`ok` is a 200 response whose body parsed; `httpError` is a non-200
response (Python `requests` does not raise on those); `raised` is any
exception inside the `try` block (timeout, connection error, JSON/key
parse error). -/
inductive FetchResult where
  | ok (meta : YahooMeta) (closes : List (Option ℚ))
  | httpError (status : ℕ)
  | raised (msg : String)
deriving DecidableEq, Repr

/-- The normalization of a 200-parsed response, from the body of
`get_stock_data`:
`price = meta.get('regularMarketPrice', 0)`,
`previous_close = meta.get('previousClose', 0)`,
`change = price - previous_close`,
`change_percent = (change / previous_close * 100) if previous_close else 0`,
history = non-null closes, last 30. -/
def makeQuote (symbol : String) (meta : YahooMeta) (closes : List (Option ℚ)) :
    StockEntry :=
  let current_price := meta.regularMarketPrice.getD 0
  let previous_close := meta.previousClose.getD 0
  let change := current_price - previous_close
  let change_percent := if previous_close = 0 then 0 else change / previous_close * 100
  let history := closes.filterMap id
  StockEntry.ok symbol (round2 current_price) (round2 change)
    (round2 change_percent) (round2 previous_close)
    (meta.regularMarketVolume.getD 0)
    (if history.isEmpty then [] else lastN history 30)

/-- Python dict assignment `d[k] = v` on an insertion-ordered dict:
overwrite in place when the key exists, else append. -/
def dictInsert (d : List (String × StockEntry)) (k : String) (v : StockEntry) :
    List (String × StockEntry) :=
  if d.any (fun p => p.1 = k) then
    d.map (fun p => if p.1 = k then (k, v) else p)
  else d ++ [(k, v)]

/-- `NewsAggregator.get_stock_data(symbols)`.  The network is an oracle
`fetch` giving each symbol's call outcome.  On a 200-parsed response the
normalized record is stored; on an exception the error record is stored;
on a non-200 response the `if response.status_code == 200` guard has no
else branch, so nothing is stored for that symbol. -/
def get_stock_data (fetch : String → FetchResult) (symbols : List String) :
    List (String × StockEntry) :=
  symbols.foldl (fun stock_data symbol =>
    match fetch symbol with
    | .ok meta closes => dictInsert stock_data symbol (makeQuote symbol meta closes)
    | .httpError _ => stock_data
    | .raised msg => dictInsert stock_data symbol (.err msg symbol)) []

/-- `fetch_stock_data_from_yahoo(symbols)`: its body is line-for-line the
loop of `get_stock_data` (with a fresh HTTP session). -/
def fetch_stock_data_from_yahoo (fetch : String → FetchResult)
    (symbols : List String) : List (String × StockEntry) :=
  get_stock_data fetch symbols

/-- The entry `get_stock_data` would record for one symbol, `none` when
the symbol is silently skipped (non-200 response). -/
def entryFor (fetch : String → FetchResult) (symbol : String) :
    Option (String × StockEntry) :=
  match fetch symbol with
  | .ok meta closes => some (symbol, makeQuote symbol meta closes)
  | .httpError _ => none
  | .raised msg => some (symbol, .err msg symbol)

/-! ## String helpers

The Python code compares keywords against `message.lower()` and builds
f-string blocks with `:.2f` / `:+.2f` number formatting.  All keywords
in the program are ASCII, where Python `str.lower` agrees with
`Char.toLower` character-wise. -/

/-- Python `s.lower()` (character-wise, exact on the ASCII keywords the
program uses). -/
def pyLower (s : String) : String := ⟨s.data.map Char.toLower⟩

/-- Python `s.upper()`. -/
def pyUpper (s : String) : String := ⟨s.data.map Char.toUpper⟩

/-- Python `kw in msg.lower()`: substring test against the lowercased
message. -/
def containsKW (msg kw : String) : Prop := kw.data <:+: (pyLower msg).data

instance (msg kw : String) : Decidable (containsKW msg kw) :=
  List.decidableInfix kw.data (pyLower msg).data

/-- Python `any(kw in msg.lower() for kw in kws)`. -/
def containsAny (msg : String) (kws : List String) : Prop :=
  ∃ kw ∈ kws, containsKW msg kw

instance (msg : String) (kws : List String) : Decidable (containsAny msg kws) :=
  List.decidableBEx _ kws

/-- Python `f"{q:.2f}"` on an exact rational. -/
def fmt2 (q : ℚ) : String :=
  let n : ℤ := roundHalfEven (q * 100)
  let m : ℕ := n.natAbs
  (if n < 0 then "-" else "") ++ toString (m / 100) ++ "." ++
    (if m % 100 < 10 then "0" else "") ++ toString (m % 100)

/-- Python `f"{q:+.2f}"` (always-signed variant). -/
def fmtSigned2 (q : ℚ) : String :=
  let n : ℤ := roundHalfEven (q * 100)
  let m : ℕ := n.natAbs
  (if n < 0 then "-" else "+") ++ toString (m / 100) ++ "." ++
    (if m % 100 < 10 then "0" else "") ++ toString (m % 100)

/-! ## Quote cache refresh

The module keeps `current_data` (the last `get_full_briefing` result)
and `last_update` (a `datetime`) as globals.  Each handler inlines the
staleness test
`if not current_data or not last_update or (datetime.now() - last_update).seconds > 1800`.
`timedelta.seconds` is the seconds *component* of the normalized
timedelta, i.e. the total age in seconds modulo 86400 (for the
nonnegative ages that arise here), not `total_seconds()`.
Timestamps are modelled as seconds (`ℕ`). -/

/-- `NewsAggregator.get_full_briefing`: the stocks mapping plus one
snapshot-wide timestamp. -/
structure Briefing where
  stocks : List (String × StockEntry)
  timestamp : ℕ
deriving DecidableEq, Repr

/-- The two cache globals `current_data` and `last_update`. -/
structure CacheState where
  current_data : Option Briefing
  last_update : Option ℕ
deriving DecidableEq, Repr

/-- `timedelta.seconds` of a nonnegative age given in seconds. -/
def tdSeconds (delta : ℕ) : ℕ := delta % 86400

/-- The inlined staleness test shared by `/chat`, `/api/insights` and
`/api/briefing`. -/
def needsRefresh (st : CacheState) (now : ℕ) : Bool :=
  match st.current_data, st.last_update with
  | none, _ => true
  | _, none => true
  | some _, some lu => tdSeconds (now - lu) > 1800

/-- The refresh step of the `/chat` handler: on a stale or missing
snapshot it stores `get_full_briefing(STOCK_SYMBOLS)` AND sets
`last_update = datetime.now()`.  Returns the new state and how many
refreshes were triggered. -/
def chatRefresh (freshStocks : List (String × StockEntry)) (now : ℕ)
    (st : CacheState) : CacheState × ℕ :=
  if needsRefresh st now then
    ({ current_data := some ⟨freshStocks, now⟩, last_update := some now }, 1)
  else (st, 0)

/-- The refresh step of the `/api/insights` handler: on a stale or
missing snapshot it stores `get_full_briefing(STOCK_SYMBOLS)` but never
assigns `last_update` (the handler does not even declare it global). -/
def insightsRefresh (freshStocks : List (String × StockEntry)) (now : ℕ)
    (st : CacheState) : CacheState × ℕ :=
  if needsRefresh st now then
    ({ current_data := some ⟨freshStocks, now⟩, last_update := st.last_update }, 1)
  else (st, 0)

/-- The refresh step of the `/api/briefing` handler: identical to the
`/api/insights` one (refreshes `current_data`, never `last_update`). -/
def briefingRefresh (freshStocks : List (String × StockEntry)) (now : ℕ)
    (st : CacheState) : CacheState × ℕ :=
  insightsRefresh freshStocks now st

/-! ## Message router (`/chat` handler)

Branch order in the code: the `'stock'` test first, then the VIP
keyword list, then the sports/news keyword list, then the plain
fallback. -/

/-- Which context-assembly branch the `/chat` handler takes. -/
inductive Branch where
  | stock
  | vip (key : String)
  | news (query : String)
  | plain
deriving DecidableEq, Repr

def vipKeywords : List String :=
  ["brady", "tb12", "elon", "musk", "tesla", "trump", "djt"]

def newsKeywordList : List String :=
  ["patriots", "pats", "celtics", "news", "latest"]

/-- The inner VIP dispatch: Brady first, then Elon/Musk/Tesla, then
Trump/DJT; when none of the inner tests match (unreachable given the
outer test) `vip_context` stays empty, modelled by the empty key. -/
def vipKeyFor (msg : String) : String :=
  if containsAny msg ["brady", "tb12"] then "tom_brady"
  else if containsAny msg ["elon", "musk", "tesla"] then "elon_musk"
  else if containsAny msg ["trump", "djt"] then "trump"
  else ""

/-- The search query chosen by the news branch: the two recognized team
names map to canonical queries, anything else uses the raw message. -/
def newsQueryFor (msg : String) : String :=
  if containsKW msg "patriots" ∨ containsKW msg "pats" then "New England Patriots"
  else if containsKW msg "celtics" then "Boston Celtics"
  else msg

/-- The branch decision of the `/chat` handler, read off its
if/elif/elif/else chain. -/
def route (msg : String) : Branch :=
  if containsKW msg "stock" then .stock
  else if containsAny msg vipKeywords then .vip (vipKeyFor msg)
  else if containsAny msg newsKeywordList then .news (newsQueryFor msg)
  else .plain

/-! ## Stock-branch prompt -/

/-- Trend label chosen from the sign of `change`. -/
def trendLabel (change : ℚ) : String :=
  if change > 0 then "UP" else if change < 0 then "DOWN" else "FLAT"

/-- Arrow chosen from the sign of `change` (the characters exactly as
they appear in the source file). -/
def arrowFor (change : ℚ) : String :=
  if change > 0 then "â†‘"
  else if change < 0 then "â†“"
  else "â†’"

/-- The per-symbol block the stock branch appends to `stocks_text`. -/
def stockBlock (symbol : String) (price change change_percent : ℚ) : String :=
  symbol ++ "\n" ++
  "  Price: $" ++ fmt2 price ++ "\n" ++
  "  Change: " ++ arrowFor change ++ " $" ++ fmt2 |change| ++
    " (" ++ fmtSigned2 change_percent ++ "%)\n" ++
  "  Status: " ++ trendLabel change ++ "\n\n"

/-- One iteration of the stock branch's loop over
`current_data['stocks'].items()`: errored entries are skipped. -/
def stocksStep (acc : String) (p : String × StockEntry) : String :=
  match p.2 with
  | .ok _ price change change_percent _ _ _ =>
      acc ++ stockBlock p.1 price change change_percent
  | .err _ _ => acc

/-- The full `stocks_text` built by the stock branch. -/
def stocksText (stocks : List (String × StockEntry)) : String :=
  (stocks.foldl stocksStep "\n=== PORTFOLIO UPDATE ===\n\n") ++
    "======================\n"

/-- The prompt the stock branch hands to `sully.chat`. -/
def stockPrompt (stocks : List (String × StockEntry)) : String :=
  "Give me your Boston take on these stocks:\n" ++ stocksText stocks

/-! ## News helpers

Outcomes of upstream HTTP calls are oracles.  The non-ASCII characters
in the strings below reproduce the (mojibake) characters present in the
source file. -/

/-- Outcome of one upstream API call: a 200-parsed payload, a non-200
response, or an exception. -/
inductive ApiOutcome (α : Type) where
  | ok (payload : α)
  | httpError (status : ℕ)
  | raised (msg : String)
deriving DecidableEq, Repr

/-- One news article, with the `title` and `source.name` fields already
defaulted as the code's `dict.get` calls do. -/
structure Article where
  title : String
  source : String
deriving DecidableEq, Repr

/-- The numbered article lines `f"{i}. {title} - {source}\n"` for the
first five articles, appended to `acc`. -/
def articleLines (acc : String) (articles : List Article) : String :=
  (articles.take 5).enum.foldl
    (fun acc p =>
      acc ++ toString (p.1 + 1) ++ ". " ++ p.2.title ++ " - " ++ p.2.source ++ "\n")
    acc

/-- The News-API summary of `search_live_news`. -/
def newsSummaryFor (query : String) (articles : List Article) : String :=
  articleLines
    ("\nðŸ“° LATEST NEWS FOR '" ++ pyUpper query ++ "':\n\n")
    articles

/-- The ESPN Patriots fallback block. -/
def patriotsBlock (record : String) : String :=
  "\nðŸˆ NEW ENGLAND PATRIOTS\nRecord: " ++ record ++
    "\nNote: For today's latest news, check patriots.com/news"

/-- The ESPN Celtics fallback block. -/
def celticsBlock (record : String) : String :=
  "\nðŸ€ BOSTON CELTICS\nRecord: " ++ record ++
    "\nNote: For today's latest news, check celtics.com"

/-- The final generic pointer message of `search_live_news`. -/
def genericPointer (query : String) : String :=
  "\nðŸ“° For the latest on " ++ query ++
    ", check ESPN.com or team websites!"

/-- `NewsAggregator.search_live_news(query)`.
`newsKeyConfigured` is the truthiness of `NEWS_API_KEY`; `newsApi` the
outcome of the News-API call, `espnPatriots`/`espnCeltics` the outcomes
of the ESPN calls (their `ok` payload is the extracted record summary).
An early `return` is modelled by the `Option`; a swallowed exception or
a non-200 response falls through exactly as in the code. -/
def search_live_news (newsKeyConfigured : Bool)
    (newsApi : ApiOutcome (List Article)) (espnPatriots espnCeltics : ApiOutcome String)
    (query : String) : String :=
  let fromNewsApi : Option String :=
    if newsKeyConfigured then
      match newsApi with
      | .ok articles =>
          if articles.isEmpty then none else some (newsSummaryFor query articles)
      | _ => none
    else none
  match fromNewsApi with
  | some s => s
  | none =>
      if containsKW query "patriots" ∨ containsKW query "pats" then
        match espnPatriots with
        | .ok record => patriotsBlock record
        | _ => genericPointer query
      else if containsKW query "celtics" then
        match espnCeltics with
        | .ok record => celticsBlock record
        | _ => genericPointer query
      else genericPointer query

/-! ## VIP tracking -/

/-- One `VIP_TRACKING` profile; `stocks`/`businesses` are `none` when
the dict has no such key. -/
structure VipProfile where
  name : String
  keywords : List String
  stocks : Option (List String)
  businesses : Option (List String)
  emoji : String
deriving DecidableEq, Repr

/-- The static `VIP_TRACKING` table. -/
def VIP_TRACKING : List (String × VipProfile) :=
  [("tom_brady",
    { name := "Tom Brady",
      keywords := ["Tom Brady", "TB12", "Brady"],
      stocks := none,
      businesses := some ["TB12 Sports", "Brady Brand", "NFL Fox Sports"],
      emoji := "ðŸ" }),
   ("elon_musk",
    { name := "Elon Musk",
      keywords := ["Elon Musk", "Tesla", "SpaceX", "X Twitter"],
      stocks := some ["TSLA"],
      businesses := some ["Tesla", "SpaceX", "X (Twitter)", "Neuralink", "Boring Company"],
      emoji := "ðŸš€" }),
   ("trump",
    { name := "Donald Trump",
      keywords := ["Donald Trump", "Trump", "Truth Social"],
      stocks := some ["DJT"],
      businesses := some ["Trump Media", "Truth Social", "Trump Organization"],
      emoji := "ðŸ‡ºðŸ‡¸" })]

/-- The per-symbol stock lines of the VIP news summary:
`f"{symbol}: ${price:.2f} {indicator} {change_pct:+.2f}%\n"` for each
non-errored entry. -/
def vipStockLines (acc : String) (stock_data : List (String × StockEntry)) : String :=
  stock_data.foldl
    (fun acc p =>
      match p.2 with
      | .ok _ price _ change_percent _ _ _ =>
          acc ++ p.1 ++ ": $" ++ fmt2 price ++ " " ++
            (if change_percent > 0 then "ðŸ“ˆ"
             else "ðŸ“‰") ++
            " " ++ fmtSigned2 change_percent ++ "%\n"
      | .err _ _ => acc)
    acc

/-- The business bullet lines of the VIP news summary. -/
def vipBusinessLines (acc : String) (businesses : List String) : String :=
  businesses.foldl (fun acc b => acc ++ "â€¢ " ++ b ++ "\n") acc

/-- `NewsAggregator.search_vip_news(vip_key)`.  Unknown keys return the
empty string; with a configured key and a successful News-API call with
at least one article, the summary is built (header, article lines, then
ticker quotes via `get_stock_data` when the profile has `stocks`, then
business bullets when it has `businesses`); otherwise the fallback
pointer is returned. -/
def search_vip_news (newsKeyConfigured : Bool)
    (newsApi : ApiOutcome (List Article)) (fetch : String → FetchResult)
    (vip_key : String) : String :=
  match VIP_TRACKING.lookup vip_key with
  | none => ""
  | some vip =>
      let attempt : Option String :=
        if newsKeyConfigured then
          match newsApi with
          | .ok articles =>
              if articles.isEmpty then none
              else
                let s := articleLines
                  ("\n" ++ vip.emoji ++ " LATEST NEWS - " ++ pyUpper vip.name ++ ":\n\n")
                  articles
                let s :=
                  match vip.stocks with
                  | some syms =>
                      vipStockLines (s ++ "\nðŸ“ˆ STOCKS:\n")
                        (get_stock_data fetch syms)
                  | none => s
                let s :=
                  match vip.businesses with
                  | some bs => vipBusinessLines (s ++ "\nðŸ¢ BUSINESSES:\n") bs
                  | none => s
                some s
          | _ => none
        else none
      match attempt with
      | some s => s
      | none =>
          "\n" ++ vip.emoji ++ " For latest " ++ vip.name ++
            " news, check major news sites!"

/-! ## Conversation engine (`SullyAI`) -/

namespace SullyAI

/-- One chat message sent to the completion provider, and one turn of
`conversation_history` (both are `{"role": ..., "content": ...}`
dicts in the code). -/
structure Msg where
  role : String
  content : String
deriving DecidableEq, Repr

/-- The outbound message list of `SullyAI.chat`: the system prompt, the
optional market-context system block (present when `current_data` is
truthy; `stocksJson` stands for `json.dumps(current_data.get('stocks', {}), indent=2)`),
the last six history turns, then the new user turn. -/
def buildMessages (system_prompt : String) (stocksJson : Option String)
    (history : List Msg) (user_message : String) : List Msg :=
  [⟨"system", system_prompt⟩] ++
  (match stocksJson with
   | some j =>
       [⟨"system", "CURRENT DATA:\n" ++ ("CURRENT MARKET DATA: " ++ j)⟩]
   | none => []) ++
  lastN history 6 ++
  [⟨"user", user_message⟩]

/-- `SullyAI.chat(user_message, current_data)`.  The completion call is
the oracle `provider`; an exception there propagates (`Except.error`)
and, since the two history appends follow the call, leaves the history
unchanged.  On success the user and assistant turns are appended and
the reply returned verbatim. -/
def chat (system_prompt : String) (history : List Msg) (user_message : String)
    (stocksJson : Option String) (provider : List Msg → Except String String) :
    Except String String × List Msg :=
  let messages := buildMessages system_prompt stocksJson history user_message
  match provider messages with
  | .error e => (.error e, history)
  | .ok reply =>
      (.ok reply,
       history ++ [⟨"user", user_message⟩, ⟨"assistant", reply⟩])

end SullyAI

/-! ## Insight / alert extraction -/

/-- One record of the `extract_insights` result list. -/
structure Insight where
  type : String
  symbol : String
  message : String
  severity : String
  action : String
deriving DecidableEq, Repr

/-- One record of the `detect_alerts` result list. -/
structure Alert where
  type : String
  symbol : String
  message : String
  severity : String
  timestamp : ℕ
deriving DecidableEq, Repr

/-- An alert with its generation timestamp erased. -/
structure AlertContent where
  type : String
  symbol : String
  message : String
  severity : String
deriving DecidableEq, Repr

/-- Erase the timestamp of an alert. -/
def Alert.content (a : Alert) : AlertContent :=
  ⟨a.type, a.symbol, a.message, a.severity⟩

/-- One iteration of the per-symbol loop of `extract_insights`:
errored entries are skipped, then the `> 5` / `< -5` / `abs > 3`
threshold chain appends at most one insight. -/
def insightStep (acc : List Insight) (p : String × StockEntry) : List Insight :=
  match p.2 with
  | .err _ _ => acc
  | .ok _ _ _ change_pct _ _ _ =>
      if change_pct > 5 then
        acc ++ [⟨"strong_gain", p.1,
          p.1 ++ " up " ++ fmtSigned2 change_pct ++ "% - Strong performance",
          "positive", "Research what's driving " ++ p.1 ++ "'s momentum"⟩]
      else if change_pct < -5 then
        acc ++ [⟨"sharp_decline", p.1,
          p.1 ++ " down " ++ fmtSigned2 change_pct ++ "% - Significant drop",
          "negative", "Review " ++ p.1 ++ " position and news"⟩]
      else if |change_pct| > 3 then
        acc ++ [⟨"notable_move", p.1,
          p.1 ++ " moved " ++ fmtSigned2 change_pct ++ "% today",
          "neutral", "Monitor " ++ p.1 ++ " for continued volatility"⟩]
      else acc

/-- Is the entry non-errored? (`'error' not in data`). -/
def entryOk (p : String × StockEntry) : Bool :=
  match p.2 with
  | .ok _ _ _ _ _ _ _ => true
  | .err _ _ => false

/-- Is the entry non-errored with a positive `change_percent`? -/
def entryGainer (p : String × StockEntry) : Bool :=
  match p.2 with
  | .ok _ _ _ change_pct _ _ _ => change_pct > 0
  | .err _ _ => false

/-- `extract_insights(stocks)`: the per-symbol threshold insights, the
`broad_rally` portfolio insight when gainers exceed 75% of non-errored
symbols, truncated to the first five. -/
def extract_insights (stocks : List (String × StockEntry)) : List Insight :=
  let insights := stocks.foldl insightStep []
  let total_gainers := (stocks.filter entryGainer).length
  let total_stocks := (stocks.filter entryOk).length
  let insights :=
    if (total_gainers : ℚ) > (total_stocks : ℚ) * 0.75 then
      insights ++ [⟨"broad_rally", "PORTFOLIO",
        toString total_gainers ++ " of " ++ toString total_stocks ++
          " stocks are up - Strong market day",
        "positive", "Consider taking profits on overextended positions"⟩]
    else insights
  insights.take 5

/-- One iteration of the per-symbol loop of `detect_alerts`. -/
def alertStep (now : ℕ) (acc : List Alert) (p : String × StockEntry) : List Alert :=
  match p.2 with
  | .err _ _ => acc
  | .ok _ _ _ change_pct _ _ _ =>
      if |change_pct| > 10 then
        acc ++ [⟨"extreme_move", p.1,
          p.1 ++ ": " ++ fmtSigned2 change_pct ++ "% move - Extreme volatility!",
          "urgent", now⟩]
      else if |change_pct| > 5 then
        acc ++ [⟨"significant_move", p.1,
          p.1 ++ ": " ++ fmtSigned2 change_pct ++ "% - Significant movement",
          "warning", now⟩]
      else acc

/-- `detect_alerts(stocks)`; `now` is the `datetime.now()` each alert
records as its timestamp. -/
def detect_alerts (stocks : List (String × StockEntry)) (now : ℕ) : List Alert :=
  stocks.foldl (alertStep now) []

/-! ## Helper lemmas -/

/-- Field accessor: the `change_percent` of a non-errored entry. -/
def StockEntry.changePercent : StockEntry → Option ℚ
  | .ok _ _ _ cp _ _ _ => some cp
  | .err _ _ => none

theorem dictInsert_of_not_mem (d : List (String × StockEntry)) (k : String)
    (v : StockEntry) (h : ∀ p ∈ d, p.1 ≠ k) : dictInsert d k v = d ++ [(k, v)] := by
  unfold dictInsert
  rw [if_neg]
  intro hany
  rw [List.any_eq_true] at hany
  obtain ⟨p, hp, hpk⟩ := hany
  exact h p hp (by simpa using hpk)

theorem entryFor_fst (fetch : String → FetchResult) (s : String)
    (p : String × StockEntry) (h : entryFor fetch s = some p) : p.1 = s := by
  unfold entryFor at h
  split at h
  · exact congrArg Prod.fst (Option.some.inj h).symm
  · exact absurd h (by simp)
  · exact congrArg Prod.fst (Option.some.inj h).symm

theorem get_stock_data_go (fetch : String → FetchResult) :
    ∀ (symbols : List String) (acc : List (String × StockEntry)),
    (∀ s ∈ symbols, ∀ p ∈ acc, p.1 ≠ s) → symbols.Nodup →
    symbols.foldl (fun stock_data symbol =>
      match fetch symbol with
      | .ok meta closes => dictInsert stock_data symbol (makeQuote symbol meta closes)
      | .httpError _ => stock_data
      | .raised msg => dictInsert stock_data symbol (.err msg symbol)) acc =
      acc ++ symbols.filterMap (entryFor fetch) := by
  intro symbols
  induction symbols with
  | nil => intro acc _ _; simp
  | cons s rest ih =>
    intro acc hacc hnd
    rw [List.foldl_cons, List.filterMap_cons]
    have hrest : rest.Nodup := (List.nodup_cons.mp hnd).2
    have hsrest : s ∉ rest := (List.nodup_cons.mp hnd).1
    rcases hf : fetch s with ⟨meta, closes⟩ | code | msg
    · dsimp only
      rw [dictInsert_of_not_mem _ _ _ (fun p hp => hacc s (by simp) p hp)]
      rw [ih (acc ++ [(s, makeQuote s meta closes)]) ?_ hrest]
      · simp [entryFor, hf]
      · intro s' hs' p hp
        rcases List.mem_append.mp hp with hp | hp
        · exact hacc s' (by simp [hs']) p hp
        · simp only [List.mem_singleton] at hp
          subst hp
          intro hq
          simp only at hq
          subst hq
          exact hsrest hs'
    · dsimp only
      rw [ih acc (fun s' hs' p hp => hacc s' (by simp [hs']) p hp) hrest]
      simp [entryFor, hf]
    · dsimp only
      rw [dictInsert_of_not_mem _ _ _ (fun p hp => hacc s (by simp) p hp)]
      rw [ih (acc ++ [(s, StockEntry.err msg s)]) ?_ hrest]
      · simp [entryFor, hf]
      · intro s' hs' p hp
        rcases List.mem_append.mp hp with hp | hp
        · exact hacc s' (by simp [hs']) p hp
        · simp only [List.mem_singleton] at hp
          subst hp
          intro hq
          simp only at hq
          subst hq
          exact hsrest hs'

theorem get_stock_data_eq_filterMap (fetch : String → FetchResult)
    (symbols : List String) (h : symbols.Nodup) :
    get_stock_data fetch symbols = symbols.filterMap (entryFor fetch) := by
  unfold get_stock_data
  simpa using get_stock_data_go fetch symbols [] (by simp) h

/-- Does a fetch outcome take the silent non-200 path? -/
def FetchResult.isHttpError : FetchResult → Bool
  | .httpError _ => true
  | _ => false

/-! ## Claim C1 -/

/-- C1 counterexample: with a single symbol whose lookup returns a
non-200 response (and raises nothing), `get_stock_data` returns an
empty mapping — fewer entries than symbols, with no error-tagged record
for the failed symbol.  This falsifies the claim that the quote fetch
returns one entry per symbol "including when a per-symbol lookup fails
with a non-200 response". -/
theorem C1_counterexample :
    ¬ ((get_stock_data (fun _ => FetchResult.httpError 404) ["TSLA"]).map
        Prod.fst = ["TSLA"]) := by
  decide

/-- C1 (amended): for a duplicate-free symbol list, the quote fetch
returns exactly one entry per symbol whose lookup either succeeds with
a parsed 200 response or raises (timeout, connection error, parse
error) — the entry being the normalized quote record resp. the
`{error, symbol}` record; but a symbol whose lookup returns a non-200
response without raising is silently omitted, so in general the mapping
holds exactly the non-skipped symbols, in order. -/
theorem C1_amended_entries (fetch : String → FetchResult) (symbols : List String)
    (hnd : symbols.Nodup)
    (hok : ∀ s ∈ symbols, (fetch s).isHttpError = false) :
    (get_stock_data fetch symbols).map Prod.fst = symbols ∧
    ∀ p ∈ get_stock_data fetch symbols, entryFor fetch p.1 = some p := by
  rw [get_stock_data_eq_filterMap fetch symbols hnd]
  constructor
  · clear hnd
    induction symbols with
    | nil => simp
    | cons s rest ih =>
      have hs := hok s (by simp)
      have hrest : ∀ s ∈ rest, (fetch s).isHttpError = false :=
        fun s' hs' => hok s' (by simp [hs'])
      rw [List.filterMap_cons]
      rcases hf : fetch s with ⟨meta, closes⟩ | code | msg
      · simp [entryFor, hf, ih hrest]
      · rw [hf] at hs; simp [FetchResult.isHttpError] at hs
      · simp [entryFor, hf, ih hrest]
  · intro p hp
    obtain ⟨s, _, hs⟩ := List.mem_filterMap.mp hp
    rw [entryFor_fst fetch s p hs]
    exact hs

/-- C1 witness: a concrete run with one successful and one raising
lookup produces exactly one entry per symbol. -/
theorem C1_witness :
    (["TSLA", "AAPL"] : List String).Nodup ∧
    (∀ s ∈ (["TSLA", "AAPL"] : List String),
      ((fun s => if s = "AAPL" then FetchResult.raised "timeout"
        else FetchResult.ok ⟨some 100, some 90, some 1000⟩ []) s).isHttpError = false) ∧
    (get_stock_data
      (fun s => if s = "AAPL" then FetchResult.raised "timeout"
        else FetchResult.ok ⟨some 100, some 90, some 1000⟩ [])
      ["TSLA", "AAPL"]).map Prod.fst = ["TSLA", "AAPL"] :=
  ⟨by decide, by decide,
    (C1_amended_entries
      (fun s => if s = "AAPL" then FetchResult.raised "timeout"
        else FetchResult.ok ⟨some 100, some 90, some 1000⟩ [])
      ["TSLA", "AAPL"] (by decide) (by decide)).1⟩

/-! ## Claim C2 -/

/-- C2 (code divergence, evaluated at the failing inputs): with a
cached snapshot stored at time 0,
(a) an `/api/insights` request at time 3600 (snapshot age 3600 s >
1800 s) does trigger a refresh, but the stored `last_update` timestamp
is still 0 afterwards — the handler never assigns `last_update`, so the
stored timestamp is not strictly newer than before the call; and
(b) a `/chat` request at time 86400 (snapshot age 86400 s > 1800 s)
triggers no refresh at all, because the staleness test uses
`timedelta.seconds` — the age modulo 86400 — instead of the total age. -/
theorem C2_code_divergence :
    (insightsRefresh [] 3600
      ⟨some ⟨[], 0⟩, some 0⟩).2 = 1 ∧
    (insightsRefresh [] 3600
      ⟨some ⟨[], 0⟩, some 0⟩).1.last_update = some 0 ∧
    chatRefresh [] 86400 ⟨some ⟨[], 0⟩, some 0⟩ =
      (⟨some ⟨[], 0⟩, some 0⟩, 0) := by
  refine ⟨rfl, rfl, ?_⟩
  rfl

/-! ## Claim C6 -/

/-- C6: for every fetched symbol whose `previousClose` field is absent
or 0, the normalized entry's `change_percent` is exactly 0 — the
division is guarded by the Python truthiness test
`... if previous_close else 0`. -/
theorem C6_change_percent_zero (symbol : String) (meta : YahooMeta)
    (closes : List (Option ℚ))
    (h : meta.previousClose = none ∨ meta.previousClose = some 0) :
    (makeQuote symbol meta closes).changePercent = some 0 := by
  unfold makeQuote StockEntry.changePercent
  rcases h with h | h <;> simp [h, round2_zero]

/-- C6 witness: a concrete meta record with no `previousClose` key. -/
theorem C6_witness :
    (YahooMeta.mk (some 10) none (some 5)).previousClose = none ∧
    (makeQuote "TSLA" (YahooMeta.mk (some 10) none (some 5))
      [some 1, none, some 2]).changePercent = some 0 :=
  ⟨rfl, C6_change_percent_zero "TSLA" (YahooMeta.mk (some 10) none (some 5))
    [some 1, none, some 2] (Or.inl rfl)⟩

/-! ## Claim C9 -/

/-- C9: while a snapshot exists whose age is at most 1800 seconds, none
of the three handlers triggers a refresh: the cache state (snapshot and
timestamp) is returned unchanged and the refresh count is zero. -/
theorem C9_fresh_no_refresh (freshStocks : List (String × StockEntry))
    (now lu : ℕ) (b : Briefing) (hle : lu ≤ now) (hage : now - lu ≤ 1800) :
    chatRefresh freshStocks now ⟨some b, some lu⟩ = (⟨some b, some lu⟩, 0) ∧
    insightsRefresh freshStocks now ⟨some b, some lu⟩ = (⟨some b, some lu⟩, 0) ∧
    briefingRefresh freshStocks now ⟨some b, some lu⟩ = (⟨some b, some lu⟩, 0) := by
  have hmod : tdSeconds (now - lu) = now - lu :=
    Nat.mod_eq_of_lt (lt_of_le_of_lt hage (by norm_num))
  have hcond : needsRefresh ⟨some b, some lu⟩ now = false := by
    unfold needsRefresh
    simp only [hmod, decide_eq_false_iff_not]
    exact Nat.not_lt.mpr hage
  refine ⟨?_, ?_, ?_⟩ <;>
    simp [chatRefresh, insightsRefresh, briefingRefresh, hcond]

/-- C9 witness: snapshot stored at time 500, request at time 1000. -/
theorem C9_witness :
    (500 : ℕ) ≤ 1000 ∧ (1000 : ℕ) - 500 ≤ 1800 ∧
    chatRefresh [] 1000 ⟨some ⟨[], 500⟩, some 500⟩ =
      (⟨some ⟨[], 500⟩, some 500⟩, 0) :=
  ⟨by decide, by decide,
    (C9_fresh_no_refresh [] 1000 500 ⟨[], 500⟩ (by decide) (by decide)).1⟩

/-! ## Claim C8 -/

/-- C8: if the completion-provider call inside `SullyAI.chat` fails,
the error propagates and the rolling conversation history is unchanged
(neither turn is appended); on success both the user turn and the
assistant turn are appended and the reply is returned verbatim. -/
theorem C8_history_discipline (system_prompt : String)
    (history : List SullyAI.Msg) (user_message : String)
    (stocksJson : Option String)
    (provider : List SullyAI.Msg → Except String String) :
    (∀ e, provider (SullyAI.buildMessages system_prompt stocksJson history
        user_message) = .error e →
      SullyAI.chat system_prompt history user_message stocksJson provider =
        (.error e, history)) ∧
    (∀ reply, provider (SullyAI.buildMessages system_prompt stocksJson history
        user_message) = .ok reply →
      SullyAI.chat system_prompt history user_message stocksJson provider =
        (.ok reply, history ++
          [⟨"user", user_message⟩, ⟨"assistant", reply⟩])) := by
  constructor
  · intro e he
    simp [SullyAI.chat, he]
  · intro reply hr
    simp [SullyAI.chat, hr]

/-- C8 witness: one failing and one succeeding provider call on a
concrete engine state. -/
theorem C8_witness :
    SullyAI.chat "sys" [] "hello" none (fun _ => .error "rate limit") =
      (.error "rate limit", []) ∧
    SullyAI.chat "sys" [] "hello" none (fun _ => .ok "hi boss") =
      (.ok "hi boss", [⟨"user", "hello"⟩, ⟨"assistant", "hi boss"⟩]) :=
  ⟨(C8_history_discipline "sys" [] "hello" none
      (fun _ => .error "rate limit")).1 "rate limit" rfl,
   by
    have := (C8_history_discipline "sys" [] "hello" none
      (fun _ => .ok "hi boss")).2 "hi boss" rfl
    simpa using this⟩

/-! ## Claim C10 -/

theorem alertStep_content_congr (t1 t2 : ℕ) (p : String × StockEntry)
    (acc1 acc2 : List Alert)
    (h : acc1.map Alert.content = acc2.map Alert.content) :
    (alertStep t1 acc1 p).map Alert.content =
      (alertStep t2 acc2 p).map Alert.content := by
  rcases p with ⟨sym, e⟩
  cases e with
  | err _ _ => simpa [alertStep] using h
  | ok _ _ _ cp _ _ _ =>
    unfold alertStep
    dsimp only
    split_ifs <;> simp [Alert.content, h]

theorem detect_alerts_content (stocks : List (String × StockEntry))
    (t1 t2 : ℕ) :
    (detect_alerts stocks t1).map Alert.content =
      (detect_alerts stocks t2).map Alert.content := by
  unfold detect_alerts
  suffices hgen : ∀ (l : List (String × StockEntry)) (acc1 acc2 : List Alert),
      acc1.map Alert.content = acc2.map Alert.content →
      (List.foldl (alertStep t1) acc1 l).map Alert.content =
        (List.foldl (alertStep t2) acc2 l).map Alert.content by
    exact hgen stocks [] [] rfl
  intro l
  induction l with
  | nil => intro acc1 acc2 h; simpa using h
  | cons p rest ih =>
    intro acc1 acc2 h
    exact ih _ _ (alertStep_content_congr t1 t2 p acc1 acc2 h)

/-- C10: the insight extractor and alert detector are pure functions of
the snapshot: two calls on the same unchanged snapshot yield the same
insight list, and alert lists that agree everywhere except possibly in
the generation timestamps they carry. -/
theorem C10_idempotent (stocks : List (String × StockEntry)) (t1 t2 : ℕ) :
    extract_insights stocks = extract_insights stocks ∧
    (detect_alerts stocks t1).map Alert.content =
      (detect_alerts stocks t2).map Alert.content :=
  ⟨rfl, detect_alerts_content stocks t1 t2⟩

/-! ## String-growth lemmas

All the string-building loops in the program only append to their
accumulator; these lemmas capture that once, for reuse. -/

theorem foldl_append_grows {α : Type} (g : String → α → String)
    (hg : ∀ acc x, acc.data <+: (g acc x).data) :
    ∀ (l : List α) (acc : String), acc.data <+: (List.foldl g acc l).data := by
  intro l
  induction l with
  | nil => intro acc; exact List.prefix_refl _
  | cons x rest ih =>
    intro acc
    exact List.IsPrefix.trans (hg acc x) (ih (g acc x))

theorem articleLines_grows (arts : List Article) (acc : String) :
    acc.data <+: (articleLines acc arts).data := by
  unfold articleLines
  refine foldl_append_grows _ ?_ _ acc
  intro a p
  simp only [String.data_append, List.append_assoc]
  exact List.prefix_append _ _

theorem vipStockLines_grows (l : List (String × StockEntry)) (acc : String) :
    acc.data <+: (vipStockLines acc l).data := by
  unfold vipStockLines
  refine foldl_append_grows _ ?_ _ acc
  intro a p
  rcases p with ⟨sym, e⟩
  cases e with
  | ok _ _ _ cp _ _ _ =>
    dsimp only
    split <;>
      (simp only [String.data_append, List.append_assoc]
       exact List.prefix_append _ _)
  | err _ _ => exact List.prefix_refl _

theorem vipBusinessLines_grows (l : List String) (acc : String) :
    acc.data <+: (vipBusinessLines acc l).data := by
  unfold vipBusinessLines
  refine foldl_append_grows _ ?_ _ acc
  intro a b
  simp only [String.data_append, List.append_assoc]
  exact List.prefix_append _ _

theorem stocksText_foldl_grows (l : List (String × StockEntry)) (acc : String) :
    acc.data <+: (List.foldl stocksStep acc l).data := by
  refine foldl_append_grows _ ?_ _ acc
  intro a p
  rcases p with ⟨sym, e⟩
  cases e with
  | ok _ _ _ _ _ _ _ =>
    simp only [stocksStep, String.data_append, List.append_assoc]
    exact List.prefix_append _ _
  | err _ _ => exact List.prefix_refl _

theorem append_ne_empty_left (a b : String) (ha : a ≠ "") : a ++ b ≠ "" := by
  intro h
  apply ha
  have hd := congrArg String.data h
  rw [String.data_append] at hd
  have hnil : a.data = [] := (List.append_eq_nil.mp (by simpa using hd)).1
  exact String.ext (by simpa using hnil)

theorem ne_empty_of_data_prefix (s t : String) (h : s.data <+: t.data)
    (hs : s ≠ "") : t ≠ "" := by
  intro ht
  apply hs
  rw [ht] at h
  have : s.data = [] := List.prefix_nil.mp (by simpa using h)
  exact String.ext (by simpa using this)

/-! ## Claim C7 -/

theorem newsSummaryFor_ne_empty (query : String) (arts : List Article) :
    newsSummaryFor query arts ≠ "" := by
  unfold newsSummaryFor
  refine ne_empty_of_data_prefix _ _ (articleLines_grows arts _) ?_
  apply append_ne_empty_left
  apply append_ne_empty_left
  decide

theorem patriotsBlock_ne_empty (record : String) : patriotsBlock record ≠ "" := by
  unfold patriotsBlock
  apply append_ne_empty_left
  apply append_ne_empty_left
  decide

theorem celticsBlock_ne_empty (record : String) : celticsBlock record ≠ "" := by
  unfold celticsBlock
  apply append_ne_empty_left
  apply append_ne_empty_left
  decide

theorem genericPointer_ne_empty (query : String) : genericPointer query ≠ "" := by
  unfold genericPointer
  apply append_ne_empty_left
  apply append_ne_empty_left
  decide

/-- C7: `search_live_news` is total and never returns the empty string,
whatever the provider outcomes; when the news provider is configured
and returns at least one article it is used first; and when it is not
configured and the query names no recognized team, the generic pointer
message is returned. -/
theorem C7_news_total (newsKey : Bool) (newsApi : ApiOutcome (List Article))
    (espnPatriots espnCeltics : ApiOutcome String) (query : String)
    (arts : List Article) :
    (search_live_news newsKey newsApi espnPatriots espnCeltics query ≠ "") ∧
    (newsKey = true → newsApi = .ok arts → arts ≠ [] →
      search_live_news newsKey newsApi espnPatriots espnCeltics query =
        newsSummaryFor query arts) ∧
    (newsKey = false → ¬ containsKW query "patriots" → ¬ containsKW query "pats" →
      ¬ containsKW query "celtics" →
      search_live_news newsKey newsApi espnPatriots espnCeltics query =
        genericPointer query) := by
  refine ⟨?_, ?_, ?_⟩
  · unfold search_live_news
    cases newsKey
    · dsimp only
      rw [if_neg (by simp)]
      dsimp only
      split_ifs
      · rcases espnPatriots with r | c | m <;> dsimp only
        · exact patriotsBlock_ne_empty r
        · exact genericPointer_ne_empty query
        · exact genericPointer_ne_empty query
      · rcases espnCeltics with r | c | m <;> dsimp only
        · exact celticsBlock_ne_empty r
        · exact genericPointer_ne_empty query
        · exact genericPointer_ne_empty query
      · exact genericPointer_ne_empty query
    · dsimp only
      rw [if_pos rfl]
      rcases newsApi with arts' | code | msg <;> dsimp only
      · by_cases he : arts'.isEmpty
        · rw [if_pos he]
          dsimp only
          split_ifs
          · rcases espnPatriots with r | c | m <;> dsimp only
            · exact patriotsBlock_ne_empty r
            · exact genericPointer_ne_empty query
            · exact genericPointer_ne_empty query
          · rcases espnCeltics with r | c | m <;> dsimp only
            · exact celticsBlock_ne_empty r
            · exact genericPointer_ne_empty query
            · exact genericPointer_ne_empty query
          · exact genericPointer_ne_empty query
        · rw [if_neg he]
          exact newsSummaryFor_ne_empty query arts'
      · split_ifs
        · rcases espnPatriots with r | c | m <;> dsimp only
          · exact patriotsBlock_ne_empty r
          · exact genericPointer_ne_empty query
          · exact genericPointer_ne_empty query
        · rcases espnCeltics with r | c | m <;> dsimp only
          · exact celticsBlock_ne_empty r
          · exact genericPointer_ne_empty query
          · exact genericPointer_ne_empty query
        · exact genericPointer_ne_empty query
      · split_ifs
        · rcases espnPatriots with r | c | m <;> dsimp only
          · exact patriotsBlock_ne_empty r
          · exact genericPointer_ne_empty query
          · exact genericPointer_ne_empty query
        · rcases espnCeltics with r | c | m <;> dsimp only
          · exact celticsBlock_ne_empty r
          · exact genericPointer_ne_empty query
          · exact genericPointer_ne_empty query
        · exact genericPointer_ne_empty query
  · intro hk ha harts
    subst hk
    subst ha
    unfold search_live_news
    dsimp only
    rw [if_pos rfl, if_neg (by simp [harts])]
  · intro hk h1 h2 h3
    subst hk
    unfold search_live_news
    dsimp only
    rw [if_neg (by simp)]
    dsimp only
    rw [if_neg (not_or.mpr ⟨h1, h2⟩), if_neg h3]

/-- C7 witness: with no configured news provider and a query naming no
recognized team, the result is the non-empty generic pointer. -/
theorem C7_witness :
    search_live_news false (ApiOutcome.raised "down") (ApiOutcome.raised "down")
      (ApiOutcome.raised "down") "hello boss" ≠ "" ∧
    search_live_news false (ApiOutcome.raised "down") (ApiOutcome.raised "down")
      (ApiOutcome.raised "down") "hello boss" = genericPointer "hello boss" :=
  ⟨(C7_news_total false (ApiOutcome.raised "down") (ApiOutcome.raised "down")
      (ApiOutcome.raised "down") "hello boss" []).1,
   (C7_news_total false (ApiOutcome.raised "down") (ApiOutcome.raised "down")
      (ApiOutcome.raised "down") "hello boss" []).2.2 rfl (by decide) (by decide)
      (by decide)⟩

/-! ## Claim C3 -/

theorem stockBlock_infix_foldl (price change cp : ℚ) (sym sym2 : String)
    (prev : ℚ) (vol : ℕ) (hist : List ℚ) :
    ∀ (l : List (String × StockEntry)) (acc : String),
    (sym, StockEntry.ok sym2 price change cp prev vol hist) ∈ l →
    (stockBlock sym price change cp).data <:+:
      (List.foldl stocksStep acc l).data := by
  intro l
  induction l with
  | nil => intro acc hmem; exact absurd hmem (List.not_mem_nil _)
  | cons q rest ih =>
    intro acc hmem
    rw [List.foldl_cons]
    rcases List.mem_cons.mp hmem with heq | hmem'
    · have hstep : stocksStep acc q =
        acc ++ stockBlock sym price change cp := by
        rw [← heq]
        rfl
      rw [hstep]
      have h1 : (acc ++ stockBlock sym price change cp).data <+:
          (List.foldl stocksStep (acc ++ stockBlock sym price change cp) rest).data :=
        stocksText_foldl_grows rest _
      have h2 : (stockBlock sym price change cp).data <:+
          (acc ++ stockBlock sym price change cp).data := by
        rw [String.data_append]
        exact List.suffix_append _ _
      exact List.IsInfix.trans (List.IsSuffix.isInfix h2) (List.IsPrefix.isInfix h1)
    · exact ih (stocksStep acc q) hmem'

/-- C3: whenever the user message contains "stock" (case-insensitively),
the `/chat` router takes the stock branch — before the VIP and
news/sports branches — and the prompt handed to the Conversation Engine
contains, for every non-errored symbol of the snapshot, that symbol's
formatted block (symbol, price, change with direction arrow, signed
percent change, and the plain trend label produced by `trendLabel`). -/
theorem C3_stock_branch (msg : String) (stocks : List (String × StockEntry))
    (h : containsKW msg "stock") :
    route msg = Branch.stock ∧
    ∀ sym sym2 price change cp prev vol hist,
      (sym, StockEntry.ok sym2 price change cp prev vol hist) ∈ stocks →
      (stockBlock sym price change cp).data <:+: (stockPrompt stocks).data := by
  constructor
  · unfold route
    rw [if_pos h]
  · intro sym sym2 price change cp prev vol hist hmem
    have h1 := stockBlock_infix_foldl price change cp sym sym2 prev vol hist
      stocks "\n=== PORTFOLIO UPDATE ===\n\n" hmem
    unfold stockPrompt stocksText
    have h2 : (List.foldl stocksStep "\n=== PORTFOLIO UPDATE ===\n\n" stocks).data <+:
        ((List.foldl stocksStep "\n=== PORTFOLIO UPDATE ===\n\n" stocks) ++
          "======================\n").data := by
      rw [String.data_append]
      exact List.prefix_append _ _
    have h3 : ((List.foldl stocksStep "\n=== PORTFOLIO UPDATE ===\n\n" stocks) ++
          "======================\n").data <:+
        ("Give me your Boston take on these stocks:\n" ++
          ((List.foldl stocksStep "\n=== PORTFOLIO UPDATE ===\n\n" stocks) ++
            "======================\n")).data := by
      rw [String.data_append]
      exact List.suffix_append _ _
    exact List.IsInfix.trans h1
      (List.IsInfix.trans (List.IsPrefix.isInfix h2) (List.IsSuffix.isInfix h3))

/-- C3 witness: the router test message on a one-symbol snapshot. -/
theorem C3_witness :
    containsKW "How are my stocks looking?" "stock" ∧
    route "How are my stocks looking?" = Branch.stock ∧
    (stockBlock "TSLA" 245.5 12.3 5.2).data <:+:
      (stockPrompt [("TSLA", StockEntry.ok "TSLA" 245.5 12.3 5.2 233.2 1000 [])]).data := by
  have h : containsKW "How are my stocks looking?" "stock" := by decide
  have hc := C3_stock_branch "How are my stocks looking?"
    [("TSLA", StockEntry.ok "TSLA" 245.5 12.3 5.2 233.2 1000 [])] h
  exact ⟨h, hc.1, hc.2 "TSLA" "TSLA" 245.5 12.3 5.2 233.2 1000 [] (by simp)⟩

/-! ## Claim C4 -/

/-- C4 counterexample: the message "What's up with Elon?" does resolve
to the Elon Musk profile, but with no configured news provider
`search_vip_news` returns only the fallback pointer, which contains no
TSLA quote — so the attached news block does not always include the
associated ticker's quote. -/
theorem C4_counterexample :
    route "What's up with Elon?" = Branch.vip "elon_musk" ∧
    search_vip_news false (ApiOutcome.raised "no key")
      (fun _ => FetchResult.raised "offline") "elon_musk" =
      "\nðŸš€ For latest Elon Musk news, check major news sites!" ∧
    ¬ (("TSLA" : String).data <:+:
        (search_vip_news false (ApiOutcome.raised "no key")
          (fun _ => FetchResult.raised "offline") "elon_musk").data) := by
  refine ⟨by decide, by decide, by decide⟩

/-- C4 (amended): a message containing an Elon Musk keyword and no
earlier-matching branch keyword resolves to the Elon Musk VIP profile;
and when the news provider is configured, returns at least one article,
and the TSLA lookup succeeds, the news block contains the formatted
TSLA quote line.  When any of those provider conditions fails the block
is the fallback pointer without a quote (see the counterexample). -/
theorem C4_amended_tsla_quote (msg : String) (articles : List Article)
    (meta : YahooMeta) (closes : List (Option ℚ)) (fetch : String → FetchResult)
    (hvip : containsAny msg ["elon", "musk", "tesla"])
    (hnostock : ¬ containsKW msg "stock")
    (hnobrady : ¬ containsAny msg ["brady", "tb12"])
    (harts : articles ≠ [])
    (hfetch : fetch "TSLA" = FetchResult.ok meta closes) :
    route msg = Branch.vip "elon_musk" ∧
    ∀ price change cp prev vol hist,
      makeQuote "TSLA" meta closes =
        StockEntry.ok "TSLA" price change cp prev vol hist →
      ("TSLA: $" ++ fmt2 price ++ " " ++
        (if cp > 0 then "ðŸ“ˆ" else "ðŸ“‰") ++ " " ++
        fmtSigned2 cp ++ "%\n").data <:+:
        (search_vip_news true (ApiOutcome.ok articles) fetch "elon_musk").data := by
  constructor
  · have hv : containsAny msg vipKeywords := by
      obtain ⟨kw, hkw, hc⟩ := hvip
      refine ⟨kw, ?_, hc⟩
      simp only [vipKeywords, List.mem_cons, List.not_mem_nil, or_false] at hkw ⊢
      tauto
    unfold route
    rw [if_neg hnostock, if_pos hv]
    unfold vipKeyFor
    rw [if_neg hnobrady, if_pos hvip]
  · intro price change cp prev vol hist hq
    have hgs : get_stock_data fetch ["TSLA"] =
        [("TSLA", StockEntry.ok "TSLA" price change cp prev vol hist)] := by
      unfold get_stock_data
      simp only [List.foldl_cons, List.foldl_nil, hfetch]
      rw [← hq]
      rfl
    have hlk : VIP_TRACKING.lookup "elon_musk" = some
        ⟨"Elon Musk", ["Elon Musk", "Tesla", "SpaceX", "X Twitter"],
          some ["TSLA"],
          some ["Tesla", "SpaceX", "X (Twitter)", "Neuralink", "Boring Company"],
          "ðŸš€"⟩ := rfl
    unfold search_vip_news
    rw [hlk]
    dsimp only
    rw [if_pos rfl]
    rw [if_neg (show ¬(articles.isEmpty = true) by simp [harts])]
    dsimp only
    rw [hgs]
    generalize articleLines
      ("\n" ++ "ðŸš€" ++ " LATEST NEWS - " ++ pyUpper "Elon Musk" ++ ":\n\n")
      articles = A
    have e1 : vipStockLines (A ++ "\nðŸ“ˆ STOCKS:\n")
        [("TSLA", StockEntry.ok "TSLA" price change cp prev vol hist)] =
        (A ++ "\nðŸ“ˆ STOCKS:\n") ++ "TSLA" ++ ": $" ++ fmt2 price ++ " " ++
          (if cp > 0 then "ðŸ“ˆ" else "ðŸ“‰") ++ " " ++ fmtSigned2 cp ++ "%\n" := rfl
    have h2 : ("TSLA: $" ++ fmt2 price ++ " " ++
        (if cp > 0 then "ðŸ“ˆ" else "ðŸ“‰") ++ " " ++
        fmtSigned2 cp ++ "%\n").data <:+
        (vipStockLines (A ++ "\nðŸ“ˆ STOCKS:\n")
          [("TSLA", StockEntry.ok "TSLA" price change cp prev vol hist)]).data := by
      rw [e1]
      refine ⟨(A ++ "\nðŸ“ˆ STOCKS:\n").data, ?_⟩
      simp [String.data_append, List.append_assoc]
    have h3 : (vipStockLines (A ++ "\nðŸ“ˆ STOCKS:\n")
        [("TSLA", StockEntry.ok "TSLA" price change cp prev vol hist)]).data <+:
        (vipBusinessLines (vipStockLines (A ++ "\nðŸ“ˆ STOCKS:\n")
          [("TSLA", StockEntry.ok "TSLA" price change cp prev vol hist)] ++
          "\nðŸ¢ BUSINESSES:\n")
          ["Tesla", "SpaceX", "X (Twitter)", "Neuralink", "Boring Company"]).data := by
      refine List.IsPrefix.trans ?_ (vipBusinessLines_grows _ _)
      rw [String.data_append]
      exact List.prefix_append _ _
    exact List.IsInfix.trans (List.IsSuffix.isInfix h2) (List.IsPrefix.isInfix h3)

/-- C4 witness: a Tesla-keyword message with a configured provider, one
article, and a successful TSLA lookup. -/
theorem C4_witness :
    route "Any Tesla updates?" = Branch.vip "elon_musk" ∧
    ("TSLA: $" ++ fmt2 (round2 250) ++ " " ++
      (if round2 ((250 - 200) / 200 * 100) > 0 then "ðŸ“ˆ"
       else "ðŸ“‰") ++ " " ++
      fmtSigned2 (round2 ((250 - 200) / 200 * 100)) ++ "%\n").data <:+:
      (search_vip_news true (ApiOutcome.ok [⟨"Tesla hits new high", "Reuters"⟩])
        (fun _ => FetchResult.ok ⟨some 250, some 200, some 10⟩ [])
        "elon_musk").data := by
  have hc := C4_amended_tsla_quote "Any Tesla updates?"
    [⟨"Tesla hits new high", "Reuters"⟩]
    ⟨some 250, some 200, some 10⟩ []
    (fun _ => FetchResult.ok ⟨some 250, some 200, some 10⟩ [])
    (by decide) (by decide) (by decide) (by decide) rfl
  refine ⟨hc.1, hc.2 (round2 250) (round2 (250 - 200))
    (round2 ((250 - 200) / 200 * 100)) (round2 200) 10 [] ?_⟩
  unfold makeQuote
  norm_num [lastN]

/-! ## Claim C5 -/

/-- An entry that crosses no insight or alert threshold: errored, or
with `|change_percent| ≤ 3` (the lowest of the thresholds
`>5`, `<-5`, `|·|>3`, `|·|>10`, `|·|>5`). -/
def belowThresholds (p : String × StockEntry) : Prop :=
  match p.2 with
  | .err _ _ => True
  | .ok _ _ _ cp _ _ _ => |cp| ≤ 3

theorem insightStep_of_below (acc : List Insight) (p : String × StockEntry)
    (h : belowThresholds p) : insightStep acc p = acc := by
  rcases p with ⟨sym, e⟩
  cases e with
  | err _ _ => rfl
  | ok _ _ _ cp _ _ _ =>
    unfold belowThresholds at h
    dsimp only at h
    have h1 : cp ≤ 3 := le_trans (le_abs_self cp) h
    have h2 : -3 ≤ cp := by
      have := neg_abs_le cp
      linarith
    unfold insightStep
    dsimp only
    rw [if_neg (by linarith), if_neg (by linarith), if_neg (not_lt.mpr h)]

theorem alertStep_of_below (now : ℕ) (acc : List Alert)
    (p : String × StockEntry) (h : belowThresholds p) :
    alertStep now acc p = acc := by
  rcases p with ⟨sym, e⟩
  cases e with
  | err _ _ => rfl
  | ok _ _ _ cp _ _ _ =>
    unfold belowThresholds at h
    dsimp only at h
    unfold alertStep
    dsimp only
    rw [if_neg (by simp; linarith), if_neg (by simp; linarith)]

theorem foldl_insightStep_of_quiet (l : List (String × StockEntry))
    (acc : List Insight) (h : ∀ p ∈ l, belowThresholds p) :
    List.foldl insightStep acc l = acc := by
  induction l generalizing acc with
  | nil => rfl
  | cons p rest ih =>
    rw [List.foldl_cons, insightStep_of_below acc p (h p (by simp))]
    exact ih acc (fun q hq => h q (by simp [hq]))

theorem foldl_alertStep_of_quiet (now : ℕ) (l : List (String × StockEntry))
    (acc : List Alert) (h : ∀ p ∈ l, belowThresholds p) :
    List.foldl (alertStep now) acc l = acc := by
  induction l generalizing acc with
  | nil => rfl
  | cons p rest ih =>
    rw [List.foldl_cons, alertStep_of_below now acc p (h p (by simp))]
    exact ih acc (fun q hq => h q (by simp [hq]))

/-- C5: in a snapshot where one symbol `s` (not the `PORTFOLIO`
sentinel) has `change_percent = 12` and every other symbol is errored
or below every threshold, `extract_insights` yields exactly one insight
for `s` — the `strong_gain` record — and `detect_alerts` yields exactly
one alert for `s`, the `extreme_move` record with severity `urgent`. -/
theorem C5_single_insight_alert (stocks : List (String × StockEntry))
    (now : ℕ) (s sym2 : String) (price change prev : ℚ) (vol : ℕ)
    (hist : List ℚ)
    (hmem : (s, StockEntry.ok sym2 price change 12 prev vol hist) ∈ stocks)
    (hnd : (stocks.map Prod.fst).Nodup)
    (hsp : s ≠ "PORTFOLIO")
    (hothers : ∀ p ∈ stocks, p.1 ≠ s → belowThresholds p) :
    (extract_insights stocks).filter (fun i => i.symbol == s) =
      [⟨"strong_gain", s, s ++ " up " ++ fmtSigned2 12 ++ "% - Strong performance",
        "positive", "Research what's driving " ++ s ++ "'s momentum"⟩] ∧
    (detect_alerts stocks now).filter (fun a => a.symbol == s) =
      [⟨"extreme_move", s, s ++ ": " ++ fmtSigned2 12 ++ "% move - Extreme volatility!",
        "urgent", now⟩] := by
  obtain ⟨l1, l2, rfl⟩ := List.append_of_mem hmem
  have hnd' := hnd
  rw [List.map_append, List.map_cons] at hnd'
  obtain ⟨hn1, hn2, hdisj⟩ := List.nodup_append.mp hnd'
  have h1 : ∀ p ∈ l1, p.1 ≠ s := by
    intro p hp heq
    exact hdisj (List.mem_map_of_mem Prod.fst hp) (by simp [heq])
  have h2 : ∀ p ∈ l2, p.1 ≠ s := by
    intro p hp heq
    have hs2 : s ∉ l2.map Prod.fst := (List.nodup_cons.mp hn2).1
    exact hs2 (heq ▸ List.mem_map_of_mem Prod.fst hp)
  have hql1 : ∀ p ∈ l1, belowThresholds p :=
    fun p hp => hothers p (by simp [hp]) (h1 p hp)
  have hql2 : ∀ p ∈ l2, belowThresholds p :=
    fun p hp => hothers p (by simp [hp]) (h2 p hp)
  have hmid_ins : insightStep [] (s, StockEntry.ok sym2 price change 12 prev vol hist) =
      [⟨"strong_gain", s, s ++ " up " ++ fmtSigned2 12 ++ "% - Strong performance",
        "positive", "Research what's driving " ++ s ++ "'s momentum"⟩] := by
    unfold insightStep
    dsimp only
    rw [if_pos (by norm_num)]
    simp
  have hmid_al : alertStep now [] (s, StockEntry.ok sym2 price change 12 prev vol hist) =
      [⟨"extreme_move", s, s ++ ": " ++ fmtSigned2 12 ++ "% move - Extreme volatility!",
        "urgent", now⟩] := by
    unfold alertStep
    dsimp only
    rw [if_pos (by rw [show |(12 : ℚ)| = 12 from abs_of_pos (by norm_num)]; norm_num)]
    simp
  have hins : List.foldl insightStep []
      (l1 ++ (s, StockEntry.ok sym2 price change 12 prev vol hist) :: l2) =
      [⟨"strong_gain", s, s ++ " up " ++ fmtSigned2 12 ++ "% - Strong performance",
        "positive", "Research what's driving " ++ s ++ "'s momentum"⟩] := by
    rw [List.foldl_append, foldl_insightStep_of_quiet l1 [] hql1, List.foldl_cons]
    rw [hmid_ins]
    exact foldl_insightStep_of_quiet l2 _ hql2
  have hal : List.foldl (alertStep now) []
      (l1 ++ (s, StockEntry.ok sym2 price change 12 prev vol hist) :: l2) =
      [⟨"extreme_move", s, s ++ ": " ++ fmtSigned2 12 ++ "% move - Extreme volatility!",
        "urgent", now⟩] := by
    rw [List.foldl_append, foldl_alertStep_of_quiet now l1 [] hql1, List.foldl_cons]
    rw [hmid_al]
    exact foldl_alertStep_of_quiet now l2 _ hql2
  constructor
  · unfold extract_insights
    rw [hins]
    dsimp only
    split_ifs with hrally
    · have hb : ("PORTFOLIO" == s) = false := by
        simp [Ne.symm hsp]
      simp [List.take, List.filter, hb]
    · simp [List.take, List.filter]
  · unfold detect_alerts
    rw [hal]
    simp [List.filter]

/-- C5 witness: a two-symbol snapshot where TSLA moved +12% and AAPL
+1%. -/
theorem C5_witness :
    (extract_insights [("TSLA", StockEntry.ok "TSLA" 100 10 12 90 5 []),
        ("AAPL", StockEntry.ok "AAPL" 50 1 1 49 5 [])]).filter
        (fun i => i.symbol == "TSLA") =
      [⟨"strong_gain", "TSLA",
        "TSLA" ++ " up " ++ fmtSigned2 12 ++ "% - Strong performance",
        "positive", "Research what's driving " ++ "TSLA" ++ "'s momentum"⟩] ∧
    (detect_alerts [("TSLA", StockEntry.ok "TSLA" 100 10 12 90 5 []),
        ("AAPL", StockEntry.ok "AAPL" 50 1 1 49 5 [])] 1234).filter
        (fun a => a.symbol == "TSLA") =
      [⟨"extreme_move", "TSLA",
        "TSLA" ++ ": " ++ fmtSigned2 12 ++ "% move - Extreme volatility!",
        "urgent", 1234⟩] := by
  refine C5_single_insight_alert
    [("TSLA", StockEntry.ok "TSLA" 100 10 12 90 5 []),
     ("AAPL", StockEntry.ok "AAPL" 50 1 1 49 5 [])]
    1234 "TSLA" "TSLA" 100 10 90 5 [] (by simp) (by decide) (by decide) ?_
  intro p hp hne
  simp only [List.mem_cons, List.not_mem_nil, or_false] at hp
  rcases hp with rfl | rfl
  · exact absurd rfl hne
  · simp only [belowThresholds]
    rw [show |(1 : ℚ)| = 1 from abs_one]
    norm_num
